import Mathlib

/-!
Verification development for the GWO-glitch-visualization application.

We shallowly embed the Python sources (`glitchplot.py` and the
`gwogv_util` submodules) in Lean.  Times, frequencies and sample rates
are modelled as rationals; opaque GWpy/matplotlib objects (strain time
series, Q-grams, data-quality flags) are abstract type parameters, and
the external library calls the code makes are collected in an
environment structure of abstract functions.  Python exceptions are
modelled with `Except`; the effectful plotting entry points return a
trace of the library calls and UI messages they perform together with
the exception (if any) that escapes to the caller.
-/

namespace GWOGV

/-- A Python exception as observed by `except` clauses: either a
`ValueError` (the only class the Q-transform retry logic catches) or
some other exception, tagged by an opaque code. -/
inductive PyErr
  | valueError
  | other (code : Nat)
deriving DecidableEq, Repr

/-- Embeds `gwogv_util.collections.DataDescriptor`: the namedtuple of
parameters identifying a loaded strain data segment. -/
structure DataDescriptor where
  interferometer : String
  t_start : ℚ
  t_end : ℚ
  sample_rate : ℚ
deriving DecidableEq, Repr

/-- The application configuration attributes consulted by the embedded
functions (`app_conf` in the `gwogv_util` modules). -/
structure AppConf where
  HIGH_RATE : ℚ
  T_PAD : ℚ
  BASIC_SPEC_STRIDE : ℚ
deriving DecidableEq, Repr

/-- The keyword arguments passed to `TimeSeries.q_transform()`:
`fduration = none` models relying on the library default (2 s). -/
structure QTParams where
  outseg : ℚ × ℚ
  qrange : ℚ × ℚ
  logf : Bool
  fres : ℤ
  whiten : Bool
  fduration : Option ℚ
deriving DecidableEq, Repr

/-- The external-library surface used by the embedded code.  `S` is the
type of (opaque) strain/frequency series objects, `G` the type of
Q-gram objects.  `hasNaNmax s` models the idiom `np.isnan(s.max())`
by which the code detects silent failures. -/
structure LibEnv (S G : Type) where
  crop : S → ℚ → ℚ → S
  q_transform : S → QTParams → Except PyErr G
  whiten : S → S
  bandpass : S → ℚ → ℚ → S
  asd : S → S
  hasNaNmax : S → Bool

/-- Embeds the `fres` computation in `transform_strain`
(`gwogv_util/q_transform.py`):
`ceil(max(600, 24 * q_val) * (1 if sample_rate < HIGH_RATE else 1.3))`. -/
def fresOf (conf : AppConf) (dd : DataDescriptor) (q_val : ℚ) : ℤ :=
  ⌈(max 600 (24 * q_val)) *
    (if dd.sample_rate < conf.HIGH_RATE then 1 else 13/10)⌉

/-- The padding of the first Q-transform attempt:
`min(2.5 * t_pad, t_end - t_plotend, t_plotstart - t_start)`. -/
def fullPadding (dd : DataDescriptor) (t_plotstart t_plotend t_pad : ℚ) : ℚ :=
  min (5/2 * t_pad) (min (dd.t_end - t_plotend) (t_plotstart - dd.t_start))

/-- Embeds `transform_strain` from `gwogv_util/q_transform.py`: the
cacheable wrapper around `TimeSeries.q_transform()` with graceful
backoff to reduced padding.  The nested `try`/`except ValueError`
blocks become nested matches that retry only on `PyErr.valueError`;
the returned number is `q_warning`. -/
def transform_strain {S G : Type} (env : LibEnv S G) (conf : AppConf)
    (strain : S) (dd : DataDescriptor)
    (t_plotstart t_plotend t_pad q_val : ℚ) (whiten : Bool) :
    Except PyErr (G × Nat) :=
  let outseg := (t_plotstart, t_plotend)
  let fres := fresOf conf dd q_val
  let padding := fullPadding dd t_plotstart t_plotend t_pad
  match env.q_transform
      (env.crop strain (t_plotstart - padding) (t_plotend + padding))
      ⟨outseg, (q_val, q_val), true, fres, whiten, some t_pad⟩ with
  | .ok q_gram => .ok (q_gram, 0)
  | .error .valueError =>
    match env.q_transform
        (env.crop strain (t_plotstart - t_pad) (t_plotend + t_pad))
        ⟨outseg, (q_val, q_val), true, fres, whiten, some t_pad⟩ with
    | .ok q_gram => .ok (q_gram, 1)
    | .error .valueError =>
      match env.q_transform
          (env.crop strain t_plotstart t_plotend)
          ⟨outseg, (q_val, q_val), true, fres, whiten, none⟩ with
      | .ok q_gram => .ok (q_gram, 2)
      | .error e => .error e
    | .error e => .error e
  | .error e => .error e

/-- The first Q-transform attempt: strain cropped with the full padding
on each side, `fduration = t_pad`. -/
def qtAttempt1 {S G : Type} (env : LibEnv S G) (conf : AppConf)
    (strain : S) (dd : DataDescriptor)
    (t_plotstart t_plotend t_pad q_val : ℚ) (whiten : Bool) :
    Except PyErr G :=
  let padding := fullPadding dd t_plotstart t_plotend t_pad
  env.q_transform
    (env.crop strain (t_plotstart - padding) (t_plotend + padding))
    ⟨(t_plotstart, t_plotend), (q_val, q_val), true,
      fresOf conf dd q_val, whiten, some t_pad⟩

/-- The second Q-transform attempt: reduced padding `t_pad` on each
side, `fduration = t_pad`. -/
def qtAttempt2 {S G : Type} (env : LibEnv S G) (conf : AppConf)
    (strain : S) (dd : DataDescriptor)
    (t_plotstart t_plotend t_pad q_val : ℚ) (whiten : Bool) :
    Except PyErr G :=
  env.q_transform
    (env.crop strain (t_plotstart - t_pad) (t_plotend + t_pad))
    ⟨(t_plotstart, t_plotend), (q_val, q_val), true,
      fresOf conf dd q_val, whiten, some t_pad⟩

/-- The third Q-transform attempt: no padding, library-default
`fduration`. -/
def qtAttempt3 {S G : Type} (env : LibEnv S G) (conf : AppConf)
    (strain : S) (dd : DataDescriptor)
    (t_plotstart t_plotend _t_pad q_val : ℚ) (whiten : Bool) :
    Except PyErr G :=
  env.q_transform
    (env.crop strain t_plotstart t_plotend)
    ⟨(t_plotstart, t_plotend), (q_val, q_val), true,
      fresOf conf dd q_val, whiten, none⟩

/-- Helper: `transform_strain` is the fallback cascade over the three
named attempts (definitional: the attempts name its subterms). -/
theorem transform_strain_as_attempts {S G : Type}
    (env : LibEnv S G) (conf : AppConf) (strain : S) (dd : DataDescriptor)
    (t_plotstart t_plotend t_pad q_val : ℚ) (whiten : Bool) :
    transform_strain env conf strain dd t_plotstart t_plotend t_pad q_val whiten =
      match qtAttempt1 env conf strain dd t_plotstart t_plotend t_pad q_val whiten with
      | .ok g => .ok (g, 0)
      | .error .valueError =>
        match qtAttempt2 env conf strain dd t_plotstart t_plotend t_pad q_val whiten with
        | .ok g => .ok (g, 1)
        | .error .valueError =>
          match qtAttempt3 env conf strain dd t_plotstart t_plotend t_pad q_val whiten with
          | .ok g => .ok (g, 2)
          | .error e => .error e
        | .error e => .error e
      | .error e => .error e := rfl

/-- C1: `transform_strain` attempts the constant-Q transform at most
three times in a fixed order - full padding
`min(2.5*t_pad, t_end - t_plotend, t_plotstart - t_start)`, then, upon
a `ValueError`, reduced padding `t_pad`, then, upon another
`ValueError`, no padding - returning the result of the first attempt
that succeeds and propagating the `ValueError` of the third attempt to
its caller. -/
theorem transform_strain_fallback_sequence {S G : Type}
    (env : LibEnv S G) (conf : AppConf) (strain : S) (dd : DataDescriptor)
    (t_plotstart t_plotend t_pad q_val : ℚ) (whiten : Bool) :
    (∀ g, qtAttempt1 env conf strain dd t_plotstart t_plotend t_pad q_val whiten = .ok g →
      transform_strain env conf strain dd t_plotstart t_plotend t_pad q_val whiten = .ok (g, 0)) ∧
    (∀ g, qtAttempt1 env conf strain dd t_plotstart t_plotend t_pad q_val whiten = .error .valueError →
      qtAttempt2 env conf strain dd t_plotstart t_plotend t_pad q_val whiten = .ok g →
      transform_strain env conf strain dd t_plotstart t_plotend t_pad q_val whiten = .ok (g, 1)) ∧
    (∀ g, qtAttempt1 env conf strain dd t_plotstart t_plotend t_pad q_val whiten = .error .valueError →
      qtAttempt2 env conf strain dd t_plotstart t_plotend t_pad q_val whiten = .error .valueError →
      qtAttempt3 env conf strain dd t_plotstart t_plotend t_pad q_val whiten = .ok g →
      transform_strain env conf strain dd t_plotstart t_plotend t_pad q_val whiten = .ok (g, 2)) ∧
    (∀ e, qtAttempt1 env conf strain dd t_plotstart t_plotend t_pad q_val whiten = .error .valueError →
      qtAttempt2 env conf strain dd t_plotstart t_plotend t_pad q_val whiten = .error .valueError →
      qtAttempt3 env conf strain dd t_plotstart t_plotend t_pad q_val whiten = .error e →
      transform_strain env conf strain dd t_plotstart t_plotend t_pad q_val whiten = .error e) := by
  rw [transform_strain_as_attempts env conf strain dd t_plotstart t_plotend t_pad q_val whiten]
  refine ⟨?_, ?_, ?_, ?_⟩
  · intro g h1
    rw [h1]
  · intro g h1 h2
    rw [h1, h2]
  · intro g h1 h2 h3
    rw [h1, h2, h3]
  · intro e h1 h2 h3
    rw [h1, h2, h3]

/-- Witness for C1: a concrete environment whose first attempt
succeeds. -/
def qtEnvOk : LibEnv Unit Unit where
  crop := fun _ _ _ => ()
  q_transform := fun _ _ => .ok ()
  whiten := fun s => s
  bandpass := fun s _ _ => s
  asd := fun s => s
  hasNaNmax := fun _ => false

/-- A concrete data descriptor for witnesses. -/
def ddW : DataDescriptor := ⟨"L1", 1187008832, 1187008928, 4096⟩

/-- A concrete application configuration for witnesses. -/
def confW : AppConf := ⟨16384, 8, 1/8⟩

/-- Witness for C1 at a concrete input: the first attempt succeeds and
`transform_strain` returns its result with `q_warning = 0`. -/
theorem transform_strain_fallback_sequence_witness :
    transform_strain qtEnvOk confW () ddW 1187008881 1187008883 8 (113/10) true
      = .ok ((), 0) :=
  (transform_strain_fallback_sequence qtEnvOk confW () ddW
      1187008881 1187008883 8 (113/10) true).1 () rfl

/-- C8: whenever `transform_strain` returns normally, `q_warning` is 0,
1, or 2, and equals the number of padding attempts that raised
`ValueError` before the attempt that succeeded. -/
theorem transform_strain_warning_counts_failures {S G : Type}
    (env : LibEnv S G) (conf : AppConf) (strain : S) (dd : DataDescriptor)
    (t_plotstart t_plotend t_pad q_val : ℚ) (whiten : Bool)
    (g : G) (w : Nat)
    (h : transform_strain env conf strain dd t_plotstart t_plotend t_pad q_val whiten = .ok (g, w)) :
    (w = 0 ∨ w = 1 ∨ w = 2) ∧
    (w = 0 →
      qtAttempt1 env conf strain dd t_plotstart t_plotend t_pad q_val whiten = .ok g) ∧
    (w = 1 →
      qtAttempt1 env conf strain dd t_plotstart t_plotend t_pad q_val whiten = .error .valueError ∧
      qtAttempt2 env conf strain dd t_plotstart t_plotend t_pad q_val whiten = .ok g) ∧
    (w = 2 →
      qtAttempt1 env conf strain dd t_plotstart t_plotend t_pad q_val whiten = .error .valueError ∧
      qtAttempt2 env conf strain dd t_plotstart t_plotend t_pad q_val whiten = .error .valueError ∧
      qtAttempt3 env conf strain dd t_plotstart t_plotend t_pad q_val whiten = .ok g) := by
  rw [transform_strain_as_attempts env conf strain dd
    t_plotstart t_plotend t_pad q_val whiten] at h
  cases h1 : qtAttempt1 env conf strain dd t_plotstart t_plotend t_pad q_val whiten with
  | ok g1 =>
    rw [h1] at h
    simp only [Except.ok.injEq, Prod.mk.injEq] at h
    obtain ⟨hg, hw⟩ := h
    subst hg
    subst hw
    simp [h1]
  | error e1 =>
    cases e1 with
    | valueError =>
      rw [h1] at h
      cases h2 : qtAttempt2 env conf strain dd t_plotstart t_plotend t_pad q_val whiten with
      | ok g2 =>
        rw [h2] at h
        simp only [Except.ok.injEq, Prod.mk.injEq] at h
        obtain ⟨hg, hw⟩ := h
        subst hg
        subst hw
        simp [h1, h2]
      | error e2 =>
        cases e2 with
        | valueError =>
          rw [h2] at h
          cases h3 : qtAttempt3 env conf strain dd t_plotstart t_plotend t_pad q_val whiten with
          | ok g3 =>
            rw [h3] at h
            simp only [Except.ok.injEq, Prod.mk.injEq] at h
            obtain ⟨hg, hw⟩ := h
            subst hg
            subst hw
            simp [h1, h2, h3]
          | error e3 =>
            rw [h3] at h
            exact absurd h (by simp)
        | other c =>
          rw [h2] at h
          exact absurd h (by simp)
    | other c =>
      rw [h1] at h
      exact absurd h (by simp)

/-- Witness for C8 at a concrete input where the first attempt
succeeds: the returned warning count is 0, and the attempt equations
hold. -/
theorem transform_strain_warning_counts_failures_witness :
    ((0 : Nat) = 0 ∨ (0 : Nat) = 1 ∨ (0 : Nat) = 2) ∧
    ((0 : Nat) = 0 →
      qtAttempt1 qtEnvOk confW () ddW 1187008881 1187008883 8 (113/10) true = .ok ()) ∧
    ((0 : Nat) = 1 →
      qtAttempt1 qtEnvOk confW () ddW 1187008881 1187008883 8 (113/10) true = .error .valueError ∧
      qtAttempt2 qtEnvOk confW () ddW 1187008881 1187008883 8 (113/10) true = .ok ()) ∧
    ((0 : Nat) = 2 →
      qtAttempt1 qtEnvOk confW () ddW 1187008881 1187008883 8 (113/10) true = .error .valueError ∧
      qtAttempt2 qtEnvOk confW () ddW 1187008881 1187008883 8 (113/10) true = .error .valueError ∧
      qtAttempt3 qtEnvOk confW () ddW 1187008881 1187008883 8 (113/10) true = .ok ()) :=
  transform_strain_warning_counts_failures qtEnvOk confW () ddW
    1187008881 1187008883 8 (113/10) true () 0 rfl

/-- Observable events of the plotting entry points: library calls,
`raise` statements, lock acquisition/release, calls into the matplotlib
rendering backend (figure creation and axis configuration), handing a
figure to Streamlit, and user-facing messages. -/
inductive Event
  | cropCall (a b : ℚ)
  | whitenCall
  | bandpassCall (lo hi : ℚ)
  | asdCall
  | specCall
  | qtsfCall
  | raiseDataGap
  | raiseZeroFreq
  | acquire
  | release
  | render
  | stPyplot
  | stError
  | stWarning
deriving DecidableEq, Repr

/-- The exception (if any) escaping a plotting entry point to its
caller. -/
inductive Exc
  | dataGap
  | zeroFreqRange
  | pyErr (e : PyErr)
deriving DecidableEq, Repr

/-- The fields of the `data` argument shared by the plotting entry
points: the full loaded strain and its crop to the plot interval. -/
structure LoadedData (S : Type) where
  strain : S
  strain_cropped : S

/-- The fields of the `data_settings` argument consulted by the
plotting entry points. -/
structure DataSettings where
  t0 : ℚ
  t_plotstart : ℚ
  t_plotend : ℚ
  t_plotedge : ℚ
  t_epoch : ℚ
  t_width : ℚ
  t_major : ℚ
deriving DecidableEq, Repr

/-- Whether an event is a call into the rendering backend (which the
defensive idiom requires to happen under `RendererAgg.lock`). -/
def rendersBackend : Event → Bool
  | Event.render => true
  | Event.stPyplot => true
  | _ => false

/-- Checks the lock discipline along a trace: the lock is never
re-acquired while held nor released while free, every rendering call
happens while the lock is held, and the trace ends with the lock
released. -/
def lockDisciplined (locked : Bool) : List Event → Bool
  | [] => !locked
  | e :: es =>
    match e with
    | Event.acquire => !locked && lockDisciplined true es
    | Event.release => locked && lockDisciplined false es
    | e => (!rendersBackend e || locked) && lockDisciplined locked es

/-- Embeds `FilteredData.plot_filtered_data` from
`gwogv_util/filtered_data.py`.  The function pre-crops the strain,
raises `ZeroFrequencyRangeError` when `f_range[0] >= f_range[1]`
(before the band-pass filter is constructed), optionally whitens,
band-passes, raises `DataGapError` when the filtered output contains a
NaN (`np.isnan(filtered.max())`), and otherwise renders the cropped
filtered series under the rendering lock; both custom exceptions are
caught in the function and turned into messages.  One `render` event
stands for each matplotlib figure/axis call. -/
def plot_filtered_data {S G : Type} (env : LibEnv S G) (conf : AppConf)
    (f_low f_high : ℚ) (whiten_plot vline_enabled : Bool)
    (calib_freq_low : ℚ) (data : LoadedData S) (ds : DataSettings) :
    List Event × Option Exc :=
  let strain_precropped :=
    env.crop data.strain (ds.t_plotstart - conf.T_PAD) (ds.t_plotend + conf.T_PAD)
  let tr0 : List Event :=
    [Event.cropCall (ds.t_plotstart - conf.T_PAD) (ds.t_plotend + conf.T_PAD)]
  if f_low ≥ f_high then
    (tr0 ++ [Event.raiseZeroFreq, Event.stWarning], none)
  else
    let maybe_whitened :=
      if whiten_plot then env.whiten strain_precropped else strain_precropped
    let filtered := env.bandpass maybe_whitened f_low f_high
    let tr1 := tr0 ++ (if whiten_plot then [Event.whitenCall] else []) ++
      [Event.bandpassCall f_low f_high]
    if env.hasNaNmax filtered then
      (tr1 ++ [Event.raiseDataGap, Event.stError], none)
    else
      (tr1 ++ [Event.cropCall ds.t_plotstart ds.t_plotedge, Event.acquire,
          Event.render, Event.render, Event.render, Event.render, Event.render] ++
        (if ds.t_width ≥ 1 then [Event.render] else []) ++
        (if ds.t_width ≤ 4 then [Event.render] else []) ++
        (if vline_enabled then [Event.render] else []) ++
        [Event.stPyplot] ++
        (if f_low < calib_freq_low then [Event.stWarning] else []) ++
        [Event.release], none)

/-- Embeds `RawData.plot_raw_data` from `gwogv_util/raw_data.py`: when
`np.isnan(strain_cropped.max().to_value())` it raises `DataGapError`,
catches it, emits `st.error` - and then re-raises it to the caller;
otherwise it renders the raw strain under the rendering lock. -/
def plot_raw_data {S G : Type} (env : LibEnv S G)
    (raw_vline_enabled : Bool) (data : LoadedData S) (ds : DataSettings) :
    List Event × Option Exc :=
  if env.hasNaNmax data.strain_cropped then
    ([Event.raiseDataGap, Event.stError], some Exc.dataGap)
  else
    ([Event.acquire, Event.render, Event.render, Event.render] ++
      (if ds.t_width ≥ 1 then [Event.render] else []) ++
      (if ds.t_width ≤ 4 then [Event.render] else []) ++
      [Event.render] ++
      (if raw_vline_enabled then [Event.render] else []) ++
      [Event.stPyplot, Event.release], none)

/-- Embeds `ASDSpectrum.plot_asd_spectrum` from
`gwogv_util/asd_spectrum.py`: computes the ASD of the cropped strain,
raises (and catches) `DataGapError` when it contains a NaN, optionally
computes a background ASD at a time offset (a NaN there only sets a
warning flag), and renders under the rendering lock; the calibration
and background warnings are emitted inside the locked block. -/
def plot_asd_spectrum {S G : Type} (env : LibEnv S G)
    (asd_f_low asd_f_high asd_offset : ℚ) (asd_lighten : Bool)
    (calib_freq_low : ℚ) (data : LoadedData S) (ds : DataSettings) :
    List Event × Option Exc :=
  let strain_asd := env.asd data.strain_cropped
  if env.hasNaNmax strain_asd then
    ([Event.asdCall, Event.raiseDataGap, Event.stError], none)
  else
    let bgnd_trace : List Event :=
      if asd_offset ≠ 0 then
        [Event.cropCall (ds.t_plotstart + asd_offset) (ds.t_plotend + asd_offset),
          Event.asdCall]
      else []
    let asd_bgnd_warning :=
      if asd_offset ≠ 0 then
        env.hasNaNmax
          (env.asd (env.crop data.strain (ds.t_plotstart + asd_offset)
            (ds.t_plotend + asd_offset)))
      else false
    ([Event.asdCall] ++ bgnd_trace ++
      [Event.acquire, Event.render] ++
      (if asd_offset ≠ 0 ∧ asd_bgnd_warning = false then
        [Event.render, Event.render] else []) ++
      [Event.render, Event.render, Event.render, Event.render,
        Event.render, Event.render, Event.render, Event.render,
        Event.render, Event.render, Event.render, Event.stPyplot] ++
      (if asd_f_low < calib_freq_low then [Event.stWarning] else []) ++
      (if asd_bgnd_warning then [Event.stWarning] else []) ++
      [Event.release], none)

/-- Embeds `QTransform.plot_q_transform` from
`gwogv_util/q_transform.py`: calls `transform_strain` (summarized by a
single `qtsfCall` event), turns a `ValueError` into `st.error`,
renders the Q-gram under the rendering lock otherwise, and emits the
reduced-padding caveat when `q_warning > 0`; exceptions other than
`ValueError` propagate to the caller. -/
def plot_q_transform {S G : Type} (env : LibEnv S G) (conf : AppConf)
    (q0 : ℚ) (whiten_qtsf qtsf_grid_enabled qtsf_vline_enabled : Bool)
    (dd : DataDescriptor) (data : LoadedData S) (ds : DataSettings) :
    List Event × Option Exc :=
  match transform_strain env conf data.strain dd
      ds.t_plotstart ds.t_plotend conf.T_PAD q0 whiten_qtsf with
  | .error .valueError => ([Event.qtsfCall, Event.stError], none)
  | .error (.other c) => ([Event.qtsfCall], some (Exc.pyErr (.other c)))
  | .ok (_q_gram, q_warning) =>
    ([Event.qtsfCall, Event.acquire,
        Event.render, Event.render, Event.render, Event.render,
        Event.render, Event.render] ++
      (if ds.t_width ≥ 1 then [Event.render] else []) ++
      (if ds.t_width ≤ 4 then [Event.render] else []) ++
      [Event.render, Event.render] ++
      (if qtsf_vline_enabled then [Event.render] else []) ++
      [Event.stPyplot, Event.release] ++
      (if 0 < q_warning then [Event.stWarning] else []), none)

/-- The external-library surface used by the spectrogram component
(`gwogv_util/spectrogram.py`): `TimeSeries.spectrogram(stride, overlap)`
and the `** (1/2.)` square root applied to its result.  `P` is the type
of (opaque) spectrogram objects. -/
structure SpecLibEnv (S P : Type) where
  spectrogram : S → ℚ → ℚ → P
  powHalf : P → P

/-- Embeds `make_specgram` from `gwogv_util/spectrogram.py`: the
cacheable wrapper around `TimeSeries.spectrogram()` raised to the power
1/2 (the descriptor and plot bounds are cache-key dummy arguments). -/
def make_specgram {S P : Type} (senv : SpecLibEnv S P) (strain : S)
    (_data_descriptor : DataDescriptor) (_t_plotstart _t_plotend : ℚ)
    (stride overlap : ℚ) : P :=
  senv.powHalf (senv.spectrogram strain stride overlap)

/-- Embeds `Spectrogram.plot_spectrogram` from
`gwogv_util/spectrogram.py` (the same rendering block as the
spectrogram section of `glitchplot.py`): computes the stride and
overlap, builds the spectrogram via `make_specgram` outside the lock,
and performs all figure creation and axis configuration inside the
`with _lock` block. -/
def plot_spectrogram {S P : Type} (senv : SpecLibEnv S P) (conf : AppConf)
    (spec_f_low spec_f_high spec_v_min spec_v_max : ℚ)
    (spec_grid_enabled spec_vline_enabled : Bool)
    (dd : DataDescriptor) (data : LoadedData S) (ds : DataSettings) :
    List Event × Option Exc :=
  let spec_stride := min (ds.t_width / 8) conf.BASIC_SPEC_STRIDE
  let spec_overlap := spec_stride / 4
  let _specgram := make_specgram senv data.strain_cropped dd
    ds.t_plotstart ds.t_plotend spec_stride spec_overlap
  ([Event.specCall, Event.acquire,
      Event.render, Event.render, Event.render, Event.render,
      Event.render, Event.render, Event.render, Event.render] ++
    (if ds.t_width ≥ 1 then [Event.render] else []) ++
    (if ds.t_width ≤ 4 then [Event.render] else []) ++
    [Event.render, Event.render] ++
    (if spec_vline_enabled then [Event.render] else []) ++
    [Event.stPyplot, Event.release], none)

/-- The `data` field consulted by the available-data-segments
component: the data-quality flag derived at load time.  `F` is the
type of (opaque) flag objects. -/
structure FlagData (F : Type) where
  flag_data : F

/-- Embeds `AvailableDataSegments.plot_available_data_segments` from
`gwogv_util/available_data.py` (the same rendering block as the
flag plot in the raw-data section of `glitchplot.py`): the entire body
is a single `with _lock` block that plots the flag series, configures
the axes (with an extra minor locator when the loaded block is 128 s
wide), draws the three vertical marker lines, and hands the figure to
Streamlit. -/
def plot_available_data_segments {F : Type} (data_flag : FlagData F)
    (dd : DataDescriptor) (ds : DataSettings) : List Event × Option Exc :=
  ([Event.acquire, Event.render, Event.render, Event.render] ++
    (if dd.t_end - dd.t_start = 128 then [Event.render] else []) ++
    [Event.render, Event.render, Event.render, Event.render, Event.render] ++
    [Event.stPyplot, Event.release], none)

/-- A concrete library environment for witnesses: a series is a single
boolean recording whether it contains a NaN; all transforms preserve
it, and the Q-transform succeeds. -/
def envB : LibEnv Bool Unit where
  crop := fun s _ _ => s
  q_transform := fun _ _ => .ok ()
  whiten := fun s => s
  bandpass := fun s _ _ => s
  asd := fun s => s
  hasNaNmax := fun s => s

/-- Concrete data settings for witnesses. -/
def ds0 : DataSettings := ⟨0, 0, 0, 1/4096, 0, 2, 1/4⟩

/-- Concrete loaded data containing no NaN anywhere. -/
def dataNoGap : LoadedData Bool := ⟨false, false⟩

/-- Concrete loaded data containing a NaN everywhere. -/
def dataWithGap : LoadedData Bool := ⟨true, true⟩

/-- C2: given `f_range[0] < f_range[1]`, `plot_filtered_data` raises
`DataGapError` if and only if the band-pass-filtered (and optionally
whitened) series contains a NaN, as detected by
`np.isnan(filtered.max())` (modelled by `hasNaNmax`). -/
theorem plot_filtered_data_gap_iff_nan {S G : Type}
    (env : LibEnv S G) (conf : AppConf) (f_low f_high : ℚ)
    (whiten_plot vline_enabled : Bool) (calib_freq_low : ℚ)
    (data : LoadedData S) (ds : DataSettings)
    (h : f_low < f_high) :
    (Event.raiseDataGap ∈
      (plot_filtered_data env conf f_low f_high whiten_plot vline_enabled
        calib_freq_low data ds).1) ↔
      env.hasNaNmax (env.bandpass
        (if whiten_plot then
          env.whiten (env.crop data.strain (ds.t_plotstart - conf.T_PAD)
            (ds.t_plotend + conf.T_PAD))
        else
          env.crop data.strain (ds.t_plotstart - conf.T_PAD)
            (ds.t_plotend + conf.T_PAD))
        f_low f_high) = true := by
  simp only [plot_filtered_data]
  rw [if_neg (not_le.mpr h)]
  split_ifs with h1 h2 h3 h4 h5 h6 h7 h8 h9 h10 <;> simp_all

/-- Witness for C2: a concrete environment where the filtered series
does contain a NaN, so `DataGapError` is raised. -/
theorem plot_filtered_data_gap_iff_nan_witness :
    Event.raiseDataGap ∈
      (plot_filtered_data envB confW 2 3 true true 10 dataWithGap ds0).1 :=
  (plot_filtered_data_gap_iff_nan envB confW 2 3 true true 10 dataWithGap ds0
    (by norm_num)).mpr rfl

/-- Counterexample to C3 as stated: with `f_range = (2, 1)` the lower
and upper limits do not coincide, yet `ZeroFrequencyRangeError` is
raised (the code tests `f_range[0] >= f_range[1]`, not equality). -/
theorem zero_freq_raised_without_coincidence :
    (2 : ℚ) ≠ 1 ∧
    Event.raiseZeroFreq ∈
      (plot_filtered_data envB confW 2 1 true true 10 dataNoGap ds0).1 := by
  constructor
  · norm_num
  · decide

/-- C3 (amended): `plot_filtered_data` raises `ZeroFrequencyRangeError`
exactly when `f_range[0] >= f_range[1]`; whenever it does, the
band-pass filter is never constructed; and for ordered ranges (as the
range slider produces), it is raised exactly when the limits
coincide. -/
theorem plot_filtered_zero_freq_iff_ge {S G : Type}
    (env : LibEnv S G) (conf : AppConf) (f_low f_high : ℚ)
    (whiten_plot vline_enabled : Bool) (calib_freq_low : ℚ)
    (data : LoadedData S) (ds : DataSettings) :
    ((Event.raiseZeroFreq ∈
      (plot_filtered_data env conf f_low f_high whiten_plot vline_enabled
        calib_freq_low data ds).1) ↔ f_high ≤ f_low) ∧
    (f_high ≤ f_low → ∀ lo hi,
      Event.bandpassCall lo hi ∉
        (plot_filtered_data env conf f_low f_high whiten_plot vline_enabled
          calib_freq_low data ds).1) ∧
    (f_low ≤ f_high →
      ((Event.raiseZeroFreq ∈
        (plot_filtered_data env conf f_low f_high whiten_plot vline_enabled
          calib_freq_low data ds).1) ↔ f_low = f_high)) := by
  refine ⟨?_, ?_, ?_⟩
  · simp only [plot_filtered_data]
    split_ifs with h1 h2 h3 h4 h5 h6 h7 h8 h9 h10 <;> simp_all
  · intro hge lo hi
    simp only [plot_filtered_data]
    rw [if_pos hge]
    simp
  · intro hle
    simp only [plot_filtered_data]
    split_ifs with h1 h2 h3 h4 h5 h6 h7 h8 h9 h10 <;>
      simp_all <;>
      first
      | exact le_antisymm hle h1
      | exact ne_of_lt h1

/-- Witness for C3 (amended): at the concrete reversed range `(2, 1)`
the band-pass filter is never constructed. -/
theorem plot_filtered_zero_freq_iff_ge_witness :
    Event.bandpassCall 2 1 ∉
      (plot_filtered_data envB confW 2 1 true true 10 dataNoGap ds0).1 :=
  (plot_filtered_zero_freq_iff_ge envB confW 2 1 true true 10 dataNoGap
    ds0).2.1 (by norm_num) 2 1

/-- Counterexample to C4 as stated: when the cropped strain contains a
NaN, `plot_raw_data` emits its error message but then re-raises the
`DataGapError`, which therefore propagates out of the entry point. -/
theorem data_gap_escapes_plot_raw_data :
    (plot_raw_data envB true dataWithGap ds0).2 = some Exc.dataGap := rfl

/-- C4 (amended): `DataGapError` and `ZeroFrequencyRangeError` never
propagate out of `plot_filtered_data` and `plot_asd_spectrum`; in
`plot_raw_data`, `DataGapError` is caught and converted into an error
message but then deliberately re-raised to the caller (and nothing
propagates when the data has no gap). -/
theorem plot_entry_point_exception_containment {S G : Type}
    (env : LibEnv S G) (conf : AppConf)
    (f_low f_high asd_f_low asd_f_high asd_offset calib_freq_low : ℚ)
    (whiten_plot vline_enabled asd_lighten : Bool)
    (data : LoadedData S) (ds : DataSettings) :
    ((plot_filtered_data env conf f_low f_high whiten_plot vline_enabled
        calib_freq_low data ds).2 = none) ∧
    ((plot_asd_spectrum env asd_f_low asd_f_high asd_offset asd_lighten
        calib_freq_low data ds).2 = none) ∧
    ((plot_raw_data env vline_enabled data ds).2 = none ∨
      ((plot_raw_data env vline_enabled data ds).2 = some Exc.dataGap ∧
        Event.stError ∈ (plot_raw_data env vline_enabled data ds).1)) := by
  refine ⟨?_, ?_, ?_⟩
  · simp only [plot_filtered_data]
    split_ifs <;> rfl
  · simp only [plot_asd_spectrum]
    split_ifs <;> rfl
  · simp only [plot_raw_data]
    split_ifs with h1 <;> simp

/-- C6: along every execution trace of all six rendering entry points
(raw data, filtered data, ASD spectrum, spectrogram, available data
segments, and constant-Q transform - the latter three also cover the
corresponding `with _lock` blocks of `glitchplot.py`), the rendering
lock is acquired before any call into the shared plotting backend
(figure creation, axis configuration, `st.pyplot`), never re-acquired
or released out of turn, and released by the end of the trace. -/
theorem rendering_lock_discipline {S G P F : Type}
    (env : LibEnv S G) (senv : SpecLibEnv S P) (conf : AppConf)
    (f_low f_high asd_f_low asd_f_high asd_offset calib_freq_low q0 : ℚ)
    (spec_f_low spec_f_high spec_v_min spec_v_max : ℚ)
    (whiten_plot vline_enabled asd_lighten whiten_qtsf grid_enabled : Bool)
    (dd : DataDescriptor) (data : LoadedData S) (data_flag : FlagData F)
    (ds : DataSettings) :
    lockDisciplined false (plot_raw_data env vline_enabled data ds).1 = true ∧
    lockDisciplined false (plot_filtered_data env conf f_low f_high
      whiten_plot vline_enabled calib_freq_low data ds).1 = true ∧
    lockDisciplined false (plot_asd_spectrum env asd_f_low asd_f_high
      asd_offset asd_lighten calib_freq_low data ds).1 = true ∧
    lockDisciplined false (plot_spectrogram senv conf spec_f_low spec_f_high
      spec_v_min spec_v_max grid_enabled vline_enabled dd data ds).1 = true ∧
    lockDisciplined false
      (plot_available_data_segments data_flag dd ds).1 = true ∧
    lockDisciplined false (plot_q_transform env conf q0 whiten_qtsf
      grid_enabled vline_enabled dd data ds).1 = true := by
  refine ⟨?_, ?_, ?_, ?_, ?_, ?_⟩
  · simp only [plot_raw_data]
    split_ifs <;> rfl
  · simp only [plot_filtered_data]
    split_ifs <;> rfl
  · simp only [plot_asd_spectrum]
    split_ifs <;> rfl
  · simp only [plot_spectrogram]
    split_ifs <;> rfl
  · simp only [plot_available_data_segments]
    split_ifs <;> rfl
  · simp only [plot_q_transform]
    rcases h : transform_strain env conf data.strain dd
        ds.t_plotstart ds.t_plotend conf.T_PAD q0 whiten_qtsf with e | p
    · cases e <;> rfl
    · obtain ⟨g, w⟩ := p
      dsimp only
      split_ifs <;> rfl

/-- The loader-side external interface (`gwogv_util/data_loader.py`):
fetching open data from GWOSC, probing a series for NaN at a time, and
building a data-quality flag.  `F` is the type of (opaque) flag
objects. -/
structure LoaderEnv (S F : Type) where
  fetch_open_data : String → ℚ → ℚ → ℚ → Bool → S
  isnan_value_at : S → ℚ → Bool
  to_dqflag : List Bool → ℚ → ℚ → F

/-- Python `int()` truncation toward zero. -/
def pyInt (q : ℚ) : ℤ := if 0 ≤ q then ⌊q⌋ else ⌈q⌉

/-- Embeds `_load_strain_impl` from `gwogv_util/data_loader.py`: fetch
with the end fudged by 1/64 s (GWpy bug #1612 workaround), then derive
the availability flag by probing the fetched strain for NaNs every
eighth of a second. -/
def load_strain_impl {S F : Type} (lenv : LoaderEnv S F)
    (url_caching : Bool) (dd : DataDescriptor) : S × F :=
  let t_end_fudged := dd.t_end + 1/64
  let strain := lenv.fetch_open_data dd.interferometer dd.t_start
    t_end_fudged dd.sample_rate url_caching
  let intervals := (pyInt ((dd.t_end - dd.t_start) * 8) - 1).toNat
  let flag := lenv.to_dqflag
    ((List.range intervals).map
      (fun i => !lenv.isnan_value_at strain (dd.t_start + (i : ℚ)/8 + 1/16)))
    8 dd.t_start
  (strain, flag)

/-- Embeds `load_low_rate_strain`: the cacheable wrapper around
low-sample-rate data fetching (cached with `data_descriptor` as key). -/
def load_low_rate_strain {S F : Type} (lenv : LoaderEnv S F)
    (url_caching : Bool) (dd : DataDescriptor) : S × F :=
  load_strain_impl lenv url_caching dd

/-- Embeds `load_high_rate_strain`: the cacheable wrapper around
high-sample-rate data fetching (cached with `data_descriptor` as key). -/
def load_high_rate_strain {S F : Type} (lenv : LoaderEnv S F)
    (url_caching : Bool) (dd : DataDescriptor) : S × F :=
  load_strain_impl lenv url_caching dd

/-- C5: the `(q_gram, q_warning)` result of `transform_strain` is fully
determined by its cache-key arguments: any two strains fetched with the
same `data_descriptor` (through either rate's cacheable loader, both of
which defer to `_load_strain_impl`) yield identical results, so
excluding the underscore-prefixed `_strain` from the cache key never
makes a cached result differ from a freshly computed one. -/
theorem transform_strain_determined_by_cache_key {S G F : Type}
    (env : LibEnv S G) (lenv : LoaderEnv S F) (conf : AppConf)
    (url_caching : Bool) (dd : DataDescriptor)
    (t_plotstart t_plotend t_pad q_val : ℚ) (whiten : Bool)
    (s1 s2 : S)
    (h1 : s1 = (load_low_rate_strain lenv url_caching dd).1 ∨
      s1 = (load_high_rate_strain lenv url_caching dd).1)
    (h2 : s2 = (load_low_rate_strain lenv url_caching dd).1 ∨
      s2 = (load_high_rate_strain lenv url_caching dd).1) :
    transform_strain env conf s1 dd t_plotstart t_plotend t_pad q_val whiten =
      transform_strain env conf s2 dd t_plotstart t_plotend t_pad q_val whiten := by
  have hs : s1 = s2 := by
    rcases h1 with h1 | h1 <;> rcases h2 with h2 | h2 <;>
      rw [h1, h2] <;> rfl
  rw [hs]

/-- A concrete loader environment for witnesses. -/
def lenvW : LoaderEnv Bool Unit where
  fetch_open_data := fun _ _ _ _ _ => false
  isnan_value_at := fun s _ => s
  to_dqflag := fun _ _ _ => ()

/-- Witness for C5: at a concrete descriptor, two loads of the same
descriptor give the same `transform_strain` result. -/
theorem transform_strain_determined_by_cache_key_witness :
    transform_strain envB confW
        ((load_low_rate_strain lenvW false ddW).1) ddW
        1187008881 1187008883 8 16 true =
      transform_strain envB confW
        ((load_high_rate_strain lenvW false ddW).1) ddW
        1187008881 1187008883 8 16 true :=
  transform_strain_determined_by_cache_key envB lenvW confW false ddW
    1187008881 1187008883 8 16 true _ _ (Or.inl rfl) (Or.inr rfl)

/-- `T_ELBOW_ROOM` from `glitchplot.py` (46.7 s). -/
def T_ELBOW_ROOM : ℚ := 467/10

/-- `T_PAD` from `glitchplot.py` (8 s of padding beyond the half
width). -/
def T_PAD : ℚ := 8

/-- Embeds the `t_cache_boundaries` computation in `glitchplot.py`:
32 s blocks by default, 512 s (low rate) or 256 s (high rate) wide
blocks on request. -/
def t_cache_boundaries (sample_rate : ℚ) (cache_wide_blocks : Bool) : ℚ :=
  if cache_wide_blocks then (if sample_rate < 16384 then 512 else 256)
  else 32

/-- `t_halfwidth = t_width / 2` from `glitchplot.py`. -/
def t_halfwidth (t_width : ℚ) : ℚ := t_width / 2

/-- `t_start` from `glitchplot.py`: the loaded interval's start,
rounded down to a cache-block boundary. -/
def t_start (tcb t0 : ℚ) : ℚ := tcb * ⌊(t0 - T_ELBOW_ROOM) / tcb⌋

/-- `t_end` from `glitchplot.py`: the loaded interval's end, rounded up
to a cache-block boundary. -/
def t_end (tcb t0 : ℚ) : ℚ := tcb * ⌈(t0 + T_ELBOW_ROOM) / tcb⌉

/-- `t_plotstart = t0 - t_halfwidth` from `glitchplot.py`. -/
def t_plotstart (t0 t_width : ℚ) : ℚ := t0 - t_halfwidth t_width

/-- `t_plotend = t0 + t_halfwidth` from `glitchplot.py`. -/
def t_plotend (t0 t_width : ℚ) : ℚ := t0 + t_halfwidth t_width

/-- C7: the plotted time interval is centered on the requested
timestamp: `t_plotstart = t0 - t_width/2`, `t_plotend = t0 + t_width/2`,
hence `t_plotend - t0 = t0 - t_plotstart`. -/
theorem plot_interval_centered_on_t0 (t0 t_width : ℚ) :
    t_plotstart t0 t_width = t0 - t_width / 2 ∧
    t_plotend t0 t_width = t0 + t_width / 2 ∧
    t_plotend t0 t_width - t0 = t0 - t_plotstart t0 t_width := by
  refine ⟨rfl, rfl, ?_⟩
  simp only [t_plotstart, t_plotend, t_halfwidth]
  ring

/-- C9: with the default cache blocks, the loaded interval
`[t_start, t_end]` has boundaries at integer multiples of the 32 s
block size and contains the padded plot interval
`[t_plotstart - T_PAD, t_plotend + T_PAD]` for every plot width up to
64 s (since `T_ELBOW_ROOM = 46.7 > 32 + 8`); consequently the raw-data
crop up to `t_plotedge = t_plotend + 1/sample_rate`, the filtered-data
pre-crop, and all three Q-transform crops stay within the fetched
data. -/
theorem loaded_interval_contains_padded_plot_interval
    (t0 t_width sample_rate : ℚ) (ifo : String)
    (hw0 : 0 ≤ t_width) (hw : t_width ≤ 64) (hsr : 1 ≤ sample_rate) :
    (∃ k : ℤ, t_start (t_cache_boundaries sample_rate false) t0 = 32 * k) ∧
    (∃ k : ℤ, t_end (t_cache_boundaries sample_rate false) t0 = 32 * k) ∧
    t_start (t_cache_boundaries sample_rate false) t0 ≤
      t_plotstart t0 t_width - T_PAD ∧
    t_plotend t0 t_width + T_PAD ≤
      t_end (t_cache_boundaries sample_rate false) t0 ∧
    t_start (t_cache_boundaries sample_rate false) t0 ≤ t_plotstart t0 t_width ∧
    t_plotend t0 t_width + 1 / sample_rate ≤
      t_end (t_cache_boundaries sample_rate false) t0 ∧
    t_start (t_cache_boundaries sample_rate false) t0 ≤
      t_plotstart t0 t_width -
        fullPadding
          ⟨ifo, t_start (t_cache_boundaries sample_rate false) t0,
            t_end (t_cache_boundaries sample_rate false) t0, sample_rate⟩
          (t_plotstart t0 t_width) (t_plotend t0 t_width) T_PAD ∧
    t_plotend t0 t_width +
        fullPadding
          ⟨ifo, t_start (t_cache_boundaries sample_rate false) t0,
            t_end (t_cache_boundaries sample_rate false) t0, sample_rate⟩
          (t_plotstart t0 t_width) (t_plotend t0 t_width) T_PAD ≤
      t_end (t_cache_boundaries sample_rate false) t0 := by
  have hB : t_cache_boundaries sample_rate false = 32 := rfl
  rw [hB]
  have hfloor : t_start 32 t0 ≤ t0 - T_ELBOW_ROOM := by
    have h1 : ((⌊(t0 - T_ELBOW_ROOM) / 32⌋ : ℚ)) ≤ (t0 - T_ELBOW_ROOM) / 32 :=
      Int.floor_le _
    have h2 : (32 : ℚ) * ((⌊(t0 - T_ELBOW_ROOM) / 32⌋ : ℚ)) ≤
        32 * ((t0 - T_ELBOW_ROOM) / 32) := by
      exact mul_le_mul_of_nonneg_left h1 (by norm_num)
    calc t_start 32 t0 = 32 * ((⌊(t0 - T_ELBOW_ROOM) / 32⌋ : ℚ)) := rfl
      _ ≤ 32 * ((t0 - T_ELBOW_ROOM) / 32) := h2
      _ = t0 - T_ELBOW_ROOM := by ring
  have hceil : t0 + T_ELBOW_ROOM ≤ t_end 32 t0 := by
    have h1 : (t0 + T_ELBOW_ROOM) / 32 ≤ ((⌈(t0 + T_ELBOW_ROOM) / 32⌉ : ℚ)) :=
      Int.le_ceil _
    have h2 : (32 : ℚ) * ((t0 + T_ELBOW_ROOM) / 32) ≤
        32 * ((⌈(t0 + T_ELBOW_ROOM) / 32⌉ : ℚ)) :=
      mul_le_mul_of_nonneg_left h1 (by norm_num)
    calc t0 + T_ELBOW_ROOM = 32 * ((t0 + T_ELBOW_ROOM) / 32) := by ring
      _ ≤ 32 * ((⌈(t0 + T_ELBOW_ROOM) / 32⌉ : ℚ)) := h2
      _ = t_end 32 t0 := rfl
  have hroom : T_ELBOW_ROOM = 467/10 := rfl
  have hpad : T_PAD = 8 := rfl
  have hps : t_plotstart t0 t_width = t0 - t_width / 2 := rfl
  have hpe : t_plotend t0 t_width = t0 + t_width / 2 := rfl
  have hstart_pad : t_start 32 t0 ≤ t_plotstart t0 t_width - T_PAD := by
    rw [hps, hpad]
    rw [hroom] at hfloor
    linarith
  have hend_pad : t_plotend t0 t_width + T_PAD ≤ t_end 32 t0 := by
    rw [hpe, hpad]
    rw [hroom] at hceil
    linarith
  have hinv : 1 / sample_rate ≤ 1 := by
    rw [div_le_one (by linarith)]
    exact hsr
  have hpadmin1 :
      fullPadding ⟨ifo, t_start 32 t0, t_end 32 t0, sample_rate⟩
        (t_plotstart t0 t_width) (t_plotend t0 t_width) T_PAD ≤
        t_plotstart t0 t_width - t_start 32 t0 :=
    le_trans (min_le_right _ _) (min_le_right _ _)
  have hpadmin2 :
      fullPadding ⟨ifo, t_start 32 t0, t_end 32 t0, sample_rate⟩
        (t_plotstart t0 t_width) (t_plotend t0 t_width) T_PAD ≤
        t_end 32 t0 - t_plotend t0 t_width :=
    le_trans (min_le_right _ _) (min_le_left _ _)
  refine ⟨⟨⌊(t0 - T_ELBOW_ROOM) / 32⌋, rfl⟩, ⟨⌈(t0 + T_ELBOW_ROOM) / 32⌉, rfl⟩,
    hstart_pad, hend_pad, ?_, ?_, ?_, ?_⟩
  · rw [hpad] at hstart_pad
    linarith
  · rw [hpad] at hend_pad
    linarith
  · linarith
  · linarith

/-- Witness for C9: at `t0 = 100`, width 2 s, low sample rate, the
loaded interval start stays below the padded plot start. -/
theorem loaded_interval_contains_padded_plot_interval_witness :
    t_start (t_cache_boundaries 4096 false) 100 ≤ t_plotstart 100 2 - T_PAD :=
  (loaded_interval_contains_padded_plot_interval 100 2 4096 "L1"
    (by norm_num) (by norm_num) (by norm_num)).2.2.1

/-- Python `round()`: round half to even (banker's rounding). -/
def pyRound (x : ℚ) : ℤ :=
  let f := ⌊x⌋
  let r := x - f
  if r < 1/2 then f
  else if 1/2 < r then f + 1
  else if Even f then f else f + 1

/-- The labellable tick values chosen by `MyFormatter.__init__` for
wide frequency ranges (ratio above 13, or a degenerate range that
matplotlib will expand to a whole decade). -/
def GOOD_SPARSE : List ℤ :=
  [1, 2, 5, 10, 20, 50, 100, 200, 500, 1000, 2000, 5000]

/-- The labellable tick values for mid-sized frequency ranges (ratio
above 5.6). -/
def GOOD_MID : List ℤ :=
  [10, 20, 30, 40, 50, 60, 80,
    100, 200, 300, 400, 500, 600, 800,
    1000, 2000, 3000, 4000, 5000]

/-- Embeds the state of `plotutil.ticker.MyFormatter`: the frequency
range passed to the constructor, the tick locations assigned later by
matplotlib (initially empty), the set of values worth labelling, and
the label-everything flag for narrow ranges. -/
structure MyFormatter where
  f_low : ℚ
  f_high : ℚ
  locs : List ℚ
  good : List ℤ
  a_ok : Bool

/-- Embeds `MyFormatter.__init__`, classifying the frequency range.
(`f_high / f_low` is exact rational division here; Python would raise
`ZeroDivisionError` on `f_low = 0`, which the app's frequency detents
exclude.) -/
def mkMyFormatter (f_low f_high : ℚ) : MyFormatter :=
  if f_high / f_low > 13 ∨ f_high = f_low then
    ⟨f_low, f_high, [], GOOD_SPARSE, false⟩
  else if f_high / f_low > 56/10 then
    ⟨f_low, f_high, [], GOOD_MID, false⟩
  else
    ⟨f_low, f_high, [], [], true⟩

/-- Models matplotlib assigning tick locations to the formatter. -/
def MyFormatter.set_locs (fmt : MyFormatter) (l : List ℚ) : MyFormatter :=
  { fmt with locs := l }

/-- Embeds `MyFormatter.__call__`: empty label when no tick locations
are assigned or `x` is further than 0.19 from `round(x)`; otherwise the
decimal representation of `round(x)` when allowed, else empty. -/
def MyFormatter.call (fmt : MyFormatter) (x : ℚ) : String :=
  if fmt.locs.length = 0 then ""
  else if |x - ((pyRound x : ℤ) : ℚ)| > 19/100 then ""
  else if fmt.a_ok = true ∨ pyRound x ∈ fmt.good then toString (pyRound x)
  else ""

/-- C10: for every constructor frequency range and tick value `x`,
`MyFormatter.__call__` returns either the empty string or the decimal
representation of `round(x)` (the integer nearest to `x`, half to
even); in particular it returns the empty string when no tick locations
are assigned or `x` is further than 0.19 from `round(x)`, and never a
fractional or exponent-style label. -/
theorem my_formatter_integer_labels_only
    (f_low f_high : ℚ) (l : List ℚ) (x : ℚ) :
    (((mkMyFormatter f_low f_high).set_locs l).call x = "" ∨
      ((mkMyFormatter f_low f_high).set_locs l).call x = toString (pyRound x)) ∧
    (l = [] → ((mkMyFormatter f_low f_high).set_locs l).call x = "") ∧
    (|x - ((pyRound x : ℤ) : ℚ)| > 19/100 →
      ((mkMyFormatter f_low f_high).set_locs l).call x = "") := by
  unfold MyFormatter.call
  refine ⟨?_, ?_, ?_⟩
  · split_ifs <;> simp
  · intro hl
    subst hl
    split_ifs with h1 <;> simp_all [MyFormatter.set_locs]
  · intro hfar
    split_ifs with h1 h2 <;> simp_all

/-- Witness for C10: at the half-integer tick value 300.5 (further
than 0.19 from the nearest integer 300) the label is empty. -/
theorem my_formatter_integer_labels_only_witness :
    ((mkMyFormatter 8 5793).set_locs [10]).call (601/2) = "" :=
  (my_formatter_integer_labels_only 8 5793 [10] (601/2)).2.2 (by
    have h300 : pyRound (601/2) = 300 := by
      have hfl : (⌊(601/2 : ℚ)⌋ : ℤ) = 300 := by
        rw [Int.floor_eq_iff]
        norm_num
      unfold pyRound
      rw [hfl]
      norm_num [Int.even_iff]
    rw [h300]
    have habs : |(601/2 : ℚ) - ((300 : ℤ) : ℚ)| = 1/2 := by
      rw [show (601/2 : ℚ) - ((300 : ℤ) : ℚ) = 1/2 by push_cast; ring]
      rw [abs_of_pos]
      norm_num
    rw [habs]
    norm_num)

end GWOGV
